import Mathlib

/-!
# geospatialsaw: filter construction and query execution

A shallow embedding of `geospatial.go` and `struct.go`.

Modelling conventions.

* A finite `float64` value is the rational it denotes (`ℚ`). The only arithmetic in
  the package is `float64(radius) / 6371000` in `GeoCenterQuery`: both the
  conversion and the division round to binary64 (53 significant bits, nearest, ties
  to even; `roundFloat64`). The exponent is not bounded in `roundFloat64`; for a
  64-bit `radius` neither overflow nor a subnormal result can occur.
* Go's `int` is `Int`; apart from that conversion the package does no arithmetic
  on it.
* A slice of records is an `Option (List LocationData)`: `none` is the `nil` slice.
* `interface{}` values stored in a `bson.M` keep their Go dynamic type (`Value`).
  A `bson.M` is an association list written in the key order of the source literal.
* The driver (`mongo.Client`, `mongo.Cursor`) is not part of the package: it is a
  parameter (`Client`, `Cursor`) that may answer every call with a value or an error.
* A call is observed through its `Run`: the list of calls it made into `context`
  and the driver, in order, and how it ended (a return with both result values, or
  a runtime panic).
-/

namespace Geospatialsaw

/-! ## struct.go -/

/-- The struct `GeoBorder`. The field `Type` is spelt `Typ` (`Type` is reserved). -/
structure GeoBorder where
  Typ : String
  Coordinates : List (List (List ℚ))
  deriving DecidableEq, Repr

/-- The struct `LocationData`. -/
structure LocationData where
  ID : String
  Province : String
  District : String
  SubDistrict : String
  Village : String
  Border : GeoBorder
  deriving DecidableEq, Repr

/-! ## Values and documents -/

/-- A Go value held in an `interface{}` slot of a filter document. -/
inductive Value where
  | str (s : String)
  | int (n : Int)
  | float (x : ℚ)
  | floats (xs : List ℚ)
  | floats2 (xs : List (List ℚ))
  | arr (xs : List Value)
  | doc (m : List (String × Value))

/-- The type `bson.M`, a `map[string]interface{}`. -/
abbrev M := List (String × Value)

/-- The keys of a document. -/
def keys (m : M) : List String := m.map Prod.fst

/-- The value stored under a key of a document. -/
def get? (m : M) (k : String) : Option Value :=
  match m.find? (fun kv => kv.1 == k) with
  | some kv => some kv.2
  | none => none

/-- The sub-document stored under a key, when the value there is a document. -/
def getDoc? (m : M) (k : String) : Option M :=
  match get? m k with
  | some (Value.doc d) => some d
  | _ => none

/-! ## context, time and the driver -/

/-- The type `time.Duration`: a count of nanoseconds. -/
abbrev Duration := Int

/-- The constant `time.Second`. -/
def Second : Duration := 1000000000

/-- A context made by `context.WithTimeout(context.Background(), timeout)`. -/
structure Context where
  timeout : Duration
  deriving DecidableEq, Repr

/-- A non-nil Go `error`. -/
structure Error where
  msg : String
  deriving DecidableEq, Repr

/-- A `*mongo.Cursor`: what `cursor.All(ctx, &results)` does with it, either an
error or the documents it decodes. -/
structure Cursor where
  all : Context → Except Error (List LocationData)

/-- A `*mongo.Client`: what `client.Database(db).Collection(coll).Find(ctx, filter)`
answers, either an error or a cursor. -/
structure Client where
  find : String → String → Context → M → Except Error Cursor

/-- The calls a query makes into `context` and the driver. -/
inductive Event where
  | withTimeout (d : Duration)
  | find (ctx : Context) (db coll : String) (filter : M)
  | all (ctx : Context)
  | cursorClose (ctx : Context)
  | cancel

/-- How a call ends: `ret results err` returns both values (`none` is `nil`),
`panic` is a runtime panic that unwinds the call. -/
inductive Outcome where
  | ret (results : Option (List LocationData)) (err : Option Error)
  | panic
  deriving DecidableEq, Repr

/-- The observable behaviour of one call. -/
structure Run where
  trace : List Event
  outcome : Outcome

/-- A function activation: the calls made so far and the stack of deferred calls,
most recently deferred first. -/
structure Frame where
  trace : List Event
  defers : List Event

/-- Record a call. -/
def Frame.call (fr : Frame) (ev : Event) : Frame :=
  { fr with trace := fr.trace ++ [ev] }

/-- The statement `defer ev`. -/
def Frame.defer (fr : Frame) (ev : Event) : Frame :=
  { fr with defers := ev :: fr.defers }

/-- The statement `return results, err`: the deferred calls run, last deferred
first, and the call ends. -/
def Frame.ret (fr : Frame) (results : Option (List LocationData))
    (err : Option Error) : Run :=
  { trace := fr.trace ++ fr.defers, outcome := Outcome.ret results err }

/-- A runtime panic: the deferred calls run and the panic leaves the call. -/
def Frame.panic (fr : Frame) : Run :=
  { trace := fr.trace ++ fr.defers, outcome := Outcome.panic }

/-! ## geospatial.go -/

/-- The elements of a slice; the `nil` slice has none. -/
def elems (results : Option (List LocationData)) : List LocationData :=
  match results with
  | none => []
  | some xs => xs

/-- What a successful `cursor.All(ctx, &results)` leaves in the variable declared by
`var results []LocationData`, which is `nil` before the call: the decoded documents
in order, and still `nil` when there are none. -/
def decoded (docs : List LocationData) : Option (List LocationData) :=
  match docs with
  | [] => none
  | d :: ds => some (d :: ds)

/-- The statements every query function runs once its filter is built
(lines 24-38, 53-67, 83-97, 114-128, 149-163, 177-191, 203-217, 230-244 and
259-273, which are the same text). -/
def findAll (client : Client) (filter : M) : Run :=
  -- ctx, cancel := context.WithTimeout(context.Background(), 10*time.Second)
  let ctx : Context := { timeout := 10 * Second }
  let fr : Frame := { trace := [Event.withTimeout (10 * Second)], defers := [] }
  -- defer cancel()
  let fr := fr.defer Event.cancel
  -- cursor, err := collection.Find(ctx, filter)
  let fr := fr.call (Event.find ctx "GIS" "location" filter)
  match client.find "GIS" "location" ctx filter with
  | Except.error err => fr.ret none (some err)
  | Except.ok cursor =>
    -- defer cursor.Close(ctx)
    let fr := fr.defer (Event.cursorClose ctx)
    -- var results []LocationData; cursor.All(ctx, &results)
    let fr := fr.call (Event.all ctx)
    match cursor.all ctx with
    | Except.error err => fr.ret none (some err)
    | Except.ok docs => fr.ret (decoded docs) none

/-- The filter of `GeoIntersectQuery` (lines 13-22). -/
def intersectFilter (polygon : List (List ℚ)) : M :=
  [("border", Value.doc
    [("$geoIntersects", Value.doc
      [("$geometry", Value.doc
        [("type", Value.str "Polygon"), ("coordinates", Value.floats2 polygon)])])])]

def GeoIntersectQuery (client : Client) (polygon : List (List ℚ)) : Run :=
  findAll client (intersectFilter polygon)

/-- The filter of `GeoWithinQuery` (lines 43-52). -/
def withinFilter (polygon : List (List ℚ)) : M :=
  [("border", Value.doc
    [("$geoWithin", Value.doc
      [("$geometry", Value.doc
        [("type", Value.str "Polygon"), ("coordinates", Value.floats2 polygon)])])])]

def GeoWithinQuery (client : Client) (polygon : List (List ℚ)) : Run :=
  findAll client (withinFilter polygon)

/-- The filter of `GeoNearQuery` (lines 72-82). -/
def nearFilter (polygon : List (List ℚ)) (maxDistance : Int) : M :=
  [("border", Value.doc
    [("$near", Value.doc
      [("$geometry", Value.doc
        [("type", Value.str "Polygon"), ("coordinates", Value.floats2 polygon)]),
       ("$maxDistance", Value.int maxDistance)])])]

def GeoNearQuery (client : Client) (polygon : List (List ℚ)) (maxDistance : Int) : Run :=
  findAll client (nearFilter polygon maxDistance)

/-- The filter of `GeoNearSphereQuery` (lines 102-112). -/
def nearSphereFilter (polygon : List (List ℚ)) (radius : Int) : M :=
  [("border", Value.doc
    [("$nearSphere", Value.doc
      [("$geometry", Value.doc
        [("type", Value.str "Polygon"), ("coordinates", Value.floats2 polygon)]),
       ("$maxDistance", Value.int radius)])])]

def GeoNearSphereQuery (client : Client) (polygon : List (List ℚ)) (radius : Int) : Run :=
  findAll client (nearSphereFilter polygon radius)

/-- The index expression `xs[i]`: `none` is the out-of-range runtime panic. -/
def index (xs : List ℚ) (i : Nat) : Option ℚ := xs[i]?

/-- The composite literal of lines 138-144, its index expressions evaluated in
source order; `none` when one of them panics. -/
def boxRing (lowerLeft upperRight : List ℚ) : Option (List (List ℚ)) := do
  let a0 ← index lowerLeft 0
  let a1 ← index lowerLeft 1
  let b0 ← index upperRight 0
  let b1 ← index lowerLeft 1
  let c0 ← index upperRight 0
  let c1 ← index upperRight 1
  let d0 ← index lowerLeft 0
  let d1 ← index upperRight 1
  let e0 ← index lowerLeft 0
  let e1 ← index lowerLeft 1
  pure [[a0, a1], [b0, b1], [c0, c1], [d0, d1], [e0, e1]]

/-- The filter of `GeoBoxQuery` (lines 133-148); `none` when building it panics. -/
def boxFilter (lowerLeft upperRight : List ℚ) : Option M :=
  match boxRing lowerLeft upperRight with
  | none => none
  | some ring =>
    some [("border", Value.doc
      [("$geoWithin", Value.doc
        [("$geometry", Value.doc
          [("type", Value.str "Polygon"), ("coordinates", Value.floats2 ring)])])])]

def GeoBoxQuery (client : Client) (lowerLeft upperRight : List ℚ) : Run :=
  match boxFilter lowerLeft upperRight with
  | none =>
    -- the panic unwinds before line 149: nothing was called, nothing deferred
    Frame.panic { trace := [], defers := [] }
  | some filter => findAll client filter

/-- Round a rational to the nearest integer, a tie going to the even one. -/
def roundHalfEven (y : ℚ) : ℤ :=
  if y - ⌊y⌋ < 1 / 2 then ⌊y⌋
  else if 1 / 2 < y - ⌊y⌋ then ⌊y⌋ + 1
  else if ⌊y⌋ % 2 = 0 then ⌊y⌋ else ⌊y⌋ + 1

/-- Rounding to binary64: for `2 ^ k ≤ |x| < 2 ^ (k + 1)` the result is the
multiple of `2 ^ (k - 52)` nearest to `x`, a tie going to the even multiple. -/
def roundFloat64 (x : ℚ) : ℚ :=
  if x = 0 then 0
  else (roundHalfEven (x / 2 ^ (Int.log 2 |x| - 52)) : ℚ) * 2 ^ (Int.log 2 |x| - 52)

/-- The conversion `float64(n)` of an `int`. -/
def float64OfInt (n : Int) : ℚ := roundFloat64 (n : ℚ)

/-- The `float64` division `x / y`, for a divisor other than zero. -/
def float64Div (x y : ℚ) : ℚ := roundFloat64 (x / y)

/-- The filter of `GeoCenterQuery` (lines 169-175). The constant `6371000` is a
binary64 value as it stands. -/
def centerFilter (center : List ℚ) (radius : Int) : M :=
  [("border", Value.doc
    [("$geoWithin", Value.doc
      [("$centerSphere", Value.arr
        [Value.floats center,
         Value.float (float64Div (float64OfInt radius) 6371000)])])])]

def GeoCenterQuery (client : Client) (center : List ℚ) (radius : Int) : Run :=
  findAll client (centerFilter center radius)

/-- The filter of `GeoGeometryQuery` (lines 196-202). -/
def geometryFilter (geometry : M) : M :=
  [("border", Value.doc
    [("$geoWithin", Value.doc
      [("$geometry", Value.doc geometry)])])]

def GeoGeometryQuery (client : Client) (geometry : M) : Run :=
  findAll client (geometryFilter geometry)

/-- The filter of `GeoMaxDistanceQuery` (lines 222-229). -/
def maxDistanceFilter (point : List (List ℚ)) (maxDistance : Int) : M :=
  [("border", Value.doc
    [("$near", Value.doc
      [("$geometry", Value.doc
        [("type", Value.str "Polygon"), ("coordinates", Value.floats2 point)]),
       ("$maxDistance", Value.int maxDistance)])])]

def GeoMaxDistanceQuery (client : Client) (point : List (List ℚ)) (maxDistance : Int) : Run :=
  findAll client (maxDistanceFilter point maxDistance)

/-- The filter of `GeoMinDistanceQuery` (lines 250-257). -/
def minDistanceFilter (point : List (List ℚ)) (minDistance : Int) : M :=
  [("border", Value.doc
    [("$near", Value.doc
      [("$geometry", Value.doc
        [("type", Value.str "Polygon"), ("coordinates", Value.floats2 point)]),
       ("$minDistance", Value.int minDistance)])])]

def GeoMinDistanceQuery (client : Client) (point : List (List ℚ)) (minDistance : Int) : Run :=
  findAll client (minDistanceFilter point minDistance)

/-! ## The nine operations as one family -/

/-- A call of one of the nine exported functions, with its arguments. -/
inductive Call where
  | intersect (polygon : List (List ℚ))
  | within (polygon : List (List ℚ))
  | near (polygon : List (List ℚ)) (maxDistance : Int)
  | nearSphere (polygon : List (List ℚ)) (radius : Int)
  | box (lowerLeft upperRight : List ℚ)
  | center (center : List ℚ) (radius : Int)
  | geometry (geometry : M)
  | maxDistance (point : List (List ℚ)) (maxDistance : Int)
  | minDistance (point : List (List ℚ)) (minDistance : Int)

/-- Run a call against a client. -/
def Call.run (client : Client) : Call → Run
  | Call.intersect p => GeoIntersectQuery client p
  | Call.within p => GeoWithinQuery client p
  | Call.near p d => GeoNearQuery client p d
  | Call.nearSphere p r => GeoNearSphereQuery client p r
  | Call.box ll ur => GeoBoxQuery client ll ur
  | Call.center ctr r => GeoCenterQuery client ctr r
  | Call.geometry g => GeoGeometryQuery client g
  | Call.maxDistance p d => GeoMaxDistanceQuery client p d
  | Call.minDistance p d => GeoMinDistanceQuery client p d

/-- The filter a call builds; `none` when building it panics. -/
def Call.filter : Call → Option M
  | Call.intersect p => some (intersectFilter p)
  | Call.within p => some (withinFilter p)
  | Call.near p d => some (nearFilter p d)
  | Call.nearSphere p r => some (nearSphereFilter p r)
  | Call.box ll ur => boxFilter ll ur
  | Call.center ctr r => some (centerFilter ctr r)
  | Call.geometry g => some (geometryFilter g)
  | Call.maxDistance p d => some (maxDistanceFilter p d)
  | Call.minDistance p d => some (minDistanceFilter p d)

/-! ## Observations on a run -/

/-- The filter of a `Find` call. -/
def Event.filter? : Event → Option M
  | Event.find _ _ _ filter => some filter
  | _ => none

/-- The execution budget an event carries: the duration given to
`context.WithTimeout`, or the timeout of the context passed to the driver. -/
def Event.budget? : Event → Option Duration
  | Event.withTimeout d => some d
  | Event.find ctx _ _ _ => some ctx.timeout
  | Event.all ctx => some ctx.timeout
  | Event.cursorClose ctx => some ctx.timeout
  | Event.cancel => none

def Event.isWithTimeout : Event → Bool
  | Event.withTimeout _ => true
  | _ => false

def Event.isCancel : Event → Bool
  | Event.cancel => true
  | _ => false

/-- The filters a run submitted to the store, in order. -/
def submitted (r : Run) : List M := r.trace.filterMap Event.filter?

/-- How many execution scopes a run acquired. -/
def acquisitions (r : Run) : Nat := r.trace.countP Event.isWithTimeout

/-- How many times a run called the `cancel` of its execution scope. -/
def releases (r : Run) : Nat := r.trace.countP Event.isCancel

/-- The context every query function creates. -/
def queryCtx : Context := { timeout := 10 * Second }

/-! ## The filter shape of the interface description -/

/-- The four predicate operators. -/
def operators : List String := ["$geoIntersects", "$geoWithin", "$near", "$nearSphere"]

/-- A filter whose single top-level key is `border`, holding a document with a
single key that is one of the four operators: that operator and its document. -/
def borderPredicate? (filter : M) : Option (String × M) :=
  match filter with
  | [(k, Value.doc [(op, Value.doc body)])] =>
    if k = "border" ∧ op ∈ operators then some (op, body) else none
  | _ => none

/-- A document with both a `type` and a `coordinates` field. -/
def hasTypeAndCoordinates (g : M) : Bool :=
  (get? g "type").isSome && (get? g "coordinates").isSome

/-- The operator's document holds a `$geometry` object with `type` and `coordinates`. -/
def hasGeometryObject (body : M) : Bool :=
  match getDoc? body "$geometry" with
  | some g => hasTypeAndCoordinates g
  | none => false

/-- The shape the interface description gives every filter: top-level key
`border`, one of the four operators, and under it a geometry object with `type`
and `coordinates`. -/
def describedShape (filter : M) : Bool :=
  match borderPredicate? filter with
  | some (_, body) => hasGeometryObject body
  | none => false

/-! ## Stores used as concrete instances -/

/-- A store whose `Find` always fails with `e`. -/
def findFails (e : Error) : Client :=
  { find := fun _ _ _ _ => Except.error e }

/-- A store whose `Find` succeeds and whose cursor fails to decode with `e`. -/
def decodeFails (e : Error) : Client :=
  { find := fun _ _ _ _ => Except.ok { all := fun _ => Except.error e } }

/-- A store whose `Find` succeeds and whose cursor decodes to `s`. -/
def answers (s : List LocationData) : Client :=
  { find := fun _ _ _ _ => Except.ok { all := fun _ => Except.ok s } }

/-- The filter `GeoBoxQuery` builds for the corners `[0, 0]` and `[1, 1]`. -/
def unitBoxFilter : M :=
  [("border", Value.doc
    [("$geoWithin", Value.doc
      [("$geometry", Value.doc
        [("type", Value.str "Polygon"),
         ("coordinates", Value.floats2 [[0, 0], [1, 0], [1, 1], [0, 1], [0, 0]])])])])]

/-- The unit square of the scenario, `[[0,0],[0,1],[1,1],[1,0],[0,0]]`. -/
def unitSquare : List (List ℚ) := [[0, 0], [0, 1], [1, 1], [1, 0], [0, 0]]

/-- A record whose border is the unit square. -/
def unitRecord : LocationData :=
  { ID := "r1", Province := "p", District := "d", SubDistrict := "s", Village := "v",
    Border := { Typ := "Polygon", Coordinates := [unitSquare] } }

/-! ## Lemmas on the shared query tail -/

theorem findAll_find_error (client : Client) (filter : M) (e : Error)
    (h : client.find "GIS" "location" queryCtx filter = Except.error e) :
    findAll client filter =
      { trace := [Event.withTimeout (10 * Second),
                  Event.find queryCtx "GIS" "location" filter, Event.cancel],
        outcome := Outcome.ret none (some e) } := by
  unfold queryCtx at h
  simp [findAll, h, Frame.ret, Frame.call, Frame.defer, queryCtx]

theorem findAll_all_error (client : Client) (filter : M) (cur : Cursor) (e : Error)
    (h : client.find "GIS" "location" queryCtx filter = Except.ok cur)
    (ha : cur.all queryCtx = Except.error e) :
    findAll client filter =
      { trace := [Event.withTimeout (10 * Second),
                  Event.find queryCtx "GIS" "location" filter, Event.all queryCtx,
                  Event.cursorClose queryCtx, Event.cancel],
        outcome := Outcome.ret none (some e) } := by
  unfold queryCtx at h ha
  simp [findAll, h, ha, Frame.ret, Frame.call, Frame.defer, queryCtx]

theorem findAll_ok (client : Client) (filter : M) (cur : Cursor) (s : List LocationData)
    (h : client.find "GIS" "location" queryCtx filter = Except.ok cur)
    (ha : cur.all queryCtx = Except.ok s) :
    findAll client filter =
      { trace := [Event.withTimeout (10 * Second),
                  Event.find queryCtx "GIS" "location" filter, Event.all queryCtx,
                  Event.cursorClose queryCtx, Event.cancel],
        outcome := Outcome.ret (decoded s) none } := by
  unfold queryCtx at h ha
  simp [findAll, h, ha, Frame.ret, Frame.call, Frame.defer, queryCtx]

/-- The three ways the shared tail can go. -/
theorem findAll_cases (client : Client) (filter : M) :
    (∃ e, client.find "GIS" "location" queryCtx filter = Except.error e) ∨
    (∃ cur e, client.find "GIS" "location" queryCtx filter = Except.ok cur ∧
      cur.all queryCtx = Except.error e) ∨
    (∃ cur s, client.find "GIS" "location" queryCtx filter = Except.ok cur ∧
      cur.all queryCtx = Except.ok s) := by
  cases h : client.find "GIS" "location" queryCtx filter with
  | error e => exact Or.inl ⟨e, rfl⟩
  | ok cur =>
    cases ha : cur.all queryCtx with
    | error e => exact Or.inr (Or.inl ⟨cur, e, rfl, ha⟩)
    | ok s => exact Or.inr (Or.inr ⟨cur, s, rfl, ha⟩)

/-- A call whose filter is built runs the shared tail on it. -/
theorem run_of_filter (client : Client) (c : Call) (f : M) (h : c.filter = some f) :
    c.run client = findAll client f := by
  cases c <;> simp only [Call.filter, Option.some.injEq] at h <;>
    first
    | (subst h; rfl)
    | simp [Call.run, GeoBoxQuery, h]

/-- A call whose filter cannot be built panics before doing anything. -/
theorem run_of_no_filter (client : Client) (c : Call) (h : c.filter = none) :
    c.run client = { trace := [], outcome := Outcome.panic } := by
  cases c <;> simp only [Call.filter] at h <;>
    first
    | exact absurd h (by simp)
    | simp [Call.run, GeoBoxQuery, h, Frame.panic]

/-- A run of the shared tail submits its filter, once. -/
theorem submitted_findAll (client : Client) (filter : M) :
    submitted (findAll client filter) = [filter] := by
  rcases findAll_cases client filter with ⟨e, h⟩ | ⟨cur, e, h, ha⟩ | ⟨cur, s, h, ha⟩
  · rw [findAll_find_error client filter e h]; rfl
  · rw [findAll_all_error client filter cur e h ha]; rfl
  · rw [findAll_ok client filter cur s h ha]; rfl

/-- With two numbers in each corner the ring of `GeoBoxQuery` is built. -/
theorem boxRing_of_length (lowerLeft upperRight : List ℚ)
    (hl : 2 ≤ lowerLeft.length) (hu : 2 ≤ upperRight.length) :
    boxRing lowerLeft upperRight =
      some [[lowerLeft[0], lowerLeft[1]], [upperRight[0], lowerLeft[1]],
            [upperRight[0], upperRight[1]], [lowerLeft[0], upperRight[1]],
            [lowerLeft[0], lowerLeft[1]]] := by
  match lowerLeft, upperRight, hl, hu with
  | a :: b :: _, c :: d :: _, _, _ => simp [boxRing, index]

/-- What a call submits is the filter it builds, if it builds one. -/
theorem submitted_run (client : Client) (c : Call) :
    submitted (c.run client) = c.filter.toList := by
  cases hf : c.filter with
  | none => rw [run_of_no_filter client c hf]; rfl
  | some f => rw [run_of_filter client c f hf, submitted_findAll]; rfl

/-- The trace of the shared tail: the scope is acquired first, `Find` comes next,
the scope is released last and only then. -/
theorem findAll_trace (client : Client) (filter : M) :
    ∃ mid : List Event,
      (findAll client filter).trace =
        Event.withTimeout (10 * Second) ::
          Event.find queryCtx "GIS" "location" filter :: (mid ++ [Event.cancel]) ∧
      (mid = [] ∨ mid = [Event.all queryCtx, Event.cursorClose queryCtx]) := by
  rcases findAll_cases client filter with ⟨e, h⟩ | ⟨cur, e, h, ha⟩ | ⟨cur, s, h, ha⟩
  · rw [findAll_find_error client filter e h]; exact ⟨[], rfl, Or.inl rfl⟩
  · rw [findAll_all_error client filter cur e h ha]; exact ⟨_, rfl, Or.inr rfl⟩
  · rw [findAll_ok client filter cur s h ha]; exact ⟨_, rfl, Or.inr rfl⟩

/-- The shared tail always returns, and an error comes with `nil` results. -/
theorem findAll_outcome (client : Client) (filter : M) :
    (∃ e, (findAll client filter).outcome = Outcome.ret none (some e)) ∨
    (∃ s, (findAll client filter).outcome = Outcome.ret (decoded s) none) := by
  rcases findAll_cases client filter with ⟨e, h⟩ | ⟨cur, e, h, ha⟩ | ⟨cur, s, h, ha⟩
  · rw [findAll_find_error client filter e h]; exact Or.inl ⟨e, rfl⟩
  · rw [findAll_all_error client filter cur e h ha]; exact Or.inl ⟨e, rfl⟩
  · rw [findAll_ok client filter cur s h ha]; exact Or.inr ⟨s, rfl⟩

/-- No call returns results together with an error. -/
theorem run_error_has_no_results (client : Client) (c : Call)
    (rs : Option (List LocationData)) (err : Error)
    (h : (c.run client).outcome = Outcome.ret rs (some err)) : rs = none := by
  cases hf : c.filter with
  | none => rw [run_of_no_filter client c hf] at h; cases h
  | some f =>
    rw [run_of_filter client c f hf] at h
    rcases findAll_outcome client f with ⟨e, he⟩ | ⟨s, hs⟩
    · rw [he] at h; cases h; rfl
    · rw [hs] at h; cases h

/-! ## Lemmas on binary64 rounding -/

/-- Rounding to the nearest integer moves a number by at most one half. -/
theorem roundHalfEven_error (y : ℚ) : |(roundHalfEven y : ℚ) - y| ≤ 1 / 2 := by
  have h1 := Int.floor_le y
  have h2 := Int.lt_floor_add_one y
  unfold roundHalfEven
  split_ifs <;> push_cast <;> rw [abs_le] <;> constructor <;> linarith

/-- Rounding to binary64 has relative error at most `2 ^ (-53)`. -/
theorem roundFloat64_error (x : ℚ) : |roundFloat64 x - x| ≤ |x| / 2 ^ 53 := by
  unfold roundFloat64
  split_ifs with h0
  · subst h0; simp
  · have hx : 0 < |x| := abs_pos.mpr h0
    have hlog : (2 : ℚ) ^ (Int.log 2 |x|) ≤ |x| := by
      have := Int.zpow_log_le_self (b := 2) (r := |x|) (by norm_num) hx
      simpa using this
    set e : ℤ := Int.log 2 |x| - 52 with he
    have hpos : (0 : ℚ) < 2 ^ e := zpow_pos (by norm_num) e
    have hr := roundHalfEven_error (x / 2 ^ e)
    have hsplit : (2 : ℚ) ^ (Int.log 2 |x|) = 2 ^ e * 2 ^ (52 : ℤ) := by
      rw [← zpow_add₀ (by norm_num : (2 : ℚ) ≠ 0)]; congr 1; omega
    have heq : (roundHalfEven (x / 2 ^ e) : ℚ) * 2 ^ e - x
        = ((roundHalfEven (x / 2 ^ e) : ℚ) - x / 2 ^ e) * 2 ^ e := by
      field_simp
    rw [heq, abs_mul, abs_of_pos hpos]
    have h52 : (2 : ℚ) ^ (52 : ℤ) = 2 ^ 52 := by norm_cast
    rw [hsplit, h52] at hlog
    calc |(roundHalfEven (x / 2 ^ e) : ℚ) - x / 2 ^ e| * 2 ^ e
        ≤ 1 / 2 * 2 ^ e := mul_le_mul_of_nonneg_right hr hpos.le
      _ = (2 ^ e * 2 ^ 52) / 2 ^ 53 := by ring
      _ ≤ |x| / 2 ^ 53 := by
          apply div_le_div_of_nonneg_right hlog (by positivity)


/-- An integer rounds to itself. -/
theorem roundHalfEven_intCast (z : ℤ) : roundHalfEven (z : ℚ) = z := by
  unfold roundHalfEven
  simp

/-- A number strictly within one half of an integer rounds to it. -/
theorem roundHalfEven_of_near (y : ℚ) (m : ℤ) (h1 : (m : ℚ) - 1 / 2 < y)
    (h2 : y < m + 1 / 2) : roundHalfEven y = m := by
  have hf1 := Int.floor_le y
  have hf2 := Int.lt_floor_add_one y
  have h4 : ((m - 1 : ℤ) : ℚ) < ((⌊y⌋ + 1 : ℤ) : ℚ) := by push_cast; linarith
  have h5 : ((⌊y⌋ : ℤ) : ℚ) < ((m + 1 : ℤ) : ℚ) := by push_cast; linarith
  have h6 := Int.cast_lt.mp h4
  have h7 := Int.cast_lt.mp h5
  have hcase : ⌊y⌋ = m ∨ ⌊y⌋ = m - 1 := by omega
  unfold roundHalfEven
  rcases hcase with hc | hc
  · rw [hc, if_pos (by linarith)]
  · rw [hc]
    have hlt : ¬ (y - ((m - 1 : ℤ) : ℚ) < 1 / 2) := by push_cast; linarith
    have hgt : 1 / 2 < y - ((m - 1 : ℤ) : ℚ) := by push_cast; linarith
    rw [if_neg hlt, if_pos hgt]; omega

/-- A tie goes to the even neighbour. -/
theorem roundHalfEven_tie (f : ℤ) :
    roundHalfEven ((f : ℚ) + 1 / 2) = if f % 2 = 0 then f else f + 1 := by
  have hfl : ⌊(f : ℚ) + 1 / 2⌋ = f := by
    rw [Int.floor_eq_iff]; constructor <;> linarith
  unfold roundHalfEven
  rw [hfl]
  simp

/-- The binary exponent of a number between two consecutive powers of two. -/
theorem log_eq_of_bounds (x : ℚ) (k : ℤ) (hlo : (2 : ℚ) ^ k ≤ |x|)
    (hhi : |x| < 2 ^ (k + 1)) : Int.log 2 |x| = k := by
  have hx : 0 < |x| := lt_of_lt_of_le (zpow_pos (by norm_num) k) hlo
  apply le_antisymm
  · have := (Int.lt_zpow_iff_log_lt (b := 2) (by norm_num) (x := k + 1) hx).mp
      (by simpa using hhi)
    omega
  · exact (Int.zpow_le_iff_le_log (b := 2) (by norm_num) hx).mp (by simpa using hlo)

/-- Rounding to binary64 when the binary exponent is known. -/
theorem roundFloat64_of_bounds (x : ℚ) (k : ℤ) (hlo : (2 : ℚ) ^ k ≤ |x|)
    (hhi : |x| < 2 ^ (k + 1)) :
    roundFloat64 x = (roundHalfEven (x / 2 ^ (k - 52)) : ℚ) * 2 ^ (k - 52) := by
  have hx : 0 < |x| := lt_of_lt_of_le (zpow_pos (by norm_num) k) hlo
  have h0 : x ≠ 0 := abs_pos.mp hx
  unfold roundFloat64
  rw [if_neg h0, log_eq_of_bounds x k hlo hhi]

/-- A number with a significand below `2 ^ 53` in absolute value is a binary64
value: rounding leaves it unchanged. -/
theorem roundFloat64_representable (m j : ℤ) (hm : |m| < 2 ^ 53) :
    roundFloat64 ((m : ℚ) * 2 ^ j) = (m : ℚ) * 2 ^ j := by
  by_cases hm0 : m = 0
  · subst hm0; simp [roundFloat64]
  have h2 : (2 : ℚ) ≠ 0 := by norm_num
  have hpj : (0 : ℚ) < 2 ^ j := zpow_pos (by norm_num) j
  have hx0 : (m : ℚ) * 2 ^ j ≠ 0 := mul_ne_zero (Int.cast_ne_zero.mpr hm0) hpj.ne.symm
  have hx : 0 < |(m : ℚ) * 2 ^ j| := abs_pos.mpr hx0
  have hmq : |(m : ℚ)| < 2 ^ (53 : ℤ) := by
    have : ((|m| : ℤ) : ℚ) < ((2 ^ 53 : ℤ) : ℚ) := Int.cast_lt.mpr hm
    rw [Int.cast_abs] at this
    calc |(m : ℚ)| < ((2 ^ 53 : ℤ) : ℚ) := this
      _ = 2 ^ (53 : ℤ) := by norm_num
  have hlt : |(m : ℚ) * 2 ^ j| < ((2 : ℕ) : ℚ) ^ (53 + j) := by
    rw [abs_mul, abs_of_pos hpj, Nat.cast_ofNat, zpow_add₀ h2]
    exact mul_lt_mul_of_pos_right hmq hpj
  have hk := (Int.lt_zpow_iff_log_lt (b := 2) (by norm_num) hx).mp hlt
  unfold roundFloat64
  rw [if_neg hx0]
  set k := Int.log 2 |(m : ℚ) * 2 ^ j| with hkdef
  obtain ⟨t, ht⟩ : ∃ t : ℕ, j - (k - 52) = (t : ℤ) :=
    ⟨(j - (k - 52)).toNat, (Int.toNat_of_nonneg (by omega)).symm⟩
  have hdiv : (m : ℚ) * 2 ^ j / 2 ^ (k - 52) = ((m * 2 ^ t : ℤ) : ℚ) := by
    rw [mul_div_assoc, ← zpow_sub₀ h2, ht]
    push_cast
    rw [zpow_natCast]
  rw [hdiv, roundHalfEven_intCast]
  push_cast
  rw [mul_assoc, ← zpow_natCast, ← zpow_add₀ h2, ← ht]
  congr 2
  omega

/-- An `int` of absolute value at most `2 ^ 53` converts exactly. -/
theorem float64OfInt_exact (n : ℤ) (hn : |n| ≤ 2 ^ 53) : float64OfInt n = n := by
  unfold float64OfInt
  rcases lt_or_eq_of_le hn with h | h
  · have := roundFloat64_representable n 0 h
    simpa using this
  · rcases abs_eq (by norm_num : (0 : ℤ) ≤ 2 ^ 53) |>.mp h with h1 | h1
    · have := roundFloat64_representable 1 53 (by norm_num)
      rw [h1]
      have e : (((2 ^ 53 : ℤ)) : ℚ) = ((1 : ℤ) : ℚ) * 2 ^ (53 : ℤ) := by norm_num
      rw [e]; exact this
    · have := roundFloat64_representable (-1) 53 (by norm_num)
      rw [h1]
      have e : (((-2 ^ 53 : ℤ)) : ℚ) = ((-1 : ℤ) : ℚ) * 2 ^ (53 : ℤ) := by norm_num
      rw [e]; exact this

/-- The `float64` quotient has relative error at most `2 ^ (-53)`. -/
theorem float64Div_error (x c : ℚ) :
    |float64Div x c - x / c| ≤ |x / c| / 2 ^ 53 := roundFloat64_error (x / c)

/-- The quotient `float64(r) / 6371000` against the exact quotient. -/
theorem angular_radius_error (r : ℤ) :
    |float64Div (float64OfInt r) 6371000 - (r : ℚ) / 6371000|
      ≤ |(r : ℚ)| / 6371000 / 2 ^ 51 ∧
    (|r| ≤ 2 ^ 53 →
      |float64Div (float64OfInt r) 6371000 - (r : ℚ) / 6371000|
        ≤ |(r : ℚ)| / 6371000 / 2 ^ 53) := by
  constructor
  · have hA : |float64OfInt r - (r : ℚ)| ≤ |(r : ℚ)| / 2 ^ 53 := roundFloat64_error _
    have hq := float64Div_error (float64OfInt r) 6371000
    have hAabs : |float64OfInt r| ≤ |(r : ℚ)| + |(r : ℚ)| / 2 ^ 53 := by
      have := abs_sub_abs_le_abs_sub (float64OfInt r) (r : ℚ)
      linarith
    have hdiv : |float64OfInt r / 6371000 - (r : ℚ) / 6371000|
        = |float64OfInt r - (r : ℚ)| / 6371000 := by
      rw [← sub_div, abs_div]; norm_num
    have hdiv2 : |float64OfInt r / 6371000| = |float64OfInt r| / 6371000 := by
      rw [abs_div]; norm_num
    rw [hdiv2] at hq
    have htri := abs_sub_le (float64Div (float64OfInt r) 6371000)
      (float64OfInt r / 6371000) ((r : ℚ) / 6371000)
    rw [hdiv] at htri
    have hr0 : 0 ≤ |(r : ℚ)| := abs_nonneg _
    have e1 : |float64OfInt r| / 6371000 / 2 ^ 53
        ≤ (|(r : ℚ)| + |(r : ℚ)| / 2 ^ 53) / 6371000 / 2 ^ 53 := by
      apply div_le_div_of_nonneg_right _ (by positivity)
      apply div_le_div_of_nonneg_right hAabs (by positivity)
    have e2 : |float64OfInt r - (r : ℚ)| / 6371000 ≤ |(r : ℚ)| / 2 ^ 53 / 6371000 :=
      div_le_div_of_nonneg_right hA (by positivity)
    have e3 : (|(r : ℚ)| + |(r : ℚ)| / 2 ^ 53) / 6371000 / 2 ^ 53
        + |(r : ℚ)| / 2 ^ 53 / 6371000 ≤ |(r : ℚ)| / 6371000 / 2 ^ 51 := by
      have : (|(r : ℚ)| + |(r : ℚ)| / 2 ^ 53) / 6371000 / 2 ^ 53
        + |(r : ℚ)| / 2 ^ 53 / 6371000 = |(r : ℚ)| * ((1 + 1 / 2 ^ 53) / 6371000 / 2 ^ 53
          + 1 / 2 ^ 53 / 6371000) := by ring
      rw [this]
      have : |(r : ℚ)| / 6371000 / 2 ^ 51 = |(r : ℚ)| * (1 / 6371000 / 2 ^ 51) := by ring
      rw [this]
      apply mul_le_mul_of_nonneg_left _ hr0
      norm_num
    linarith
  · intro hr
    rw [float64OfInt_exact r hr]
    have := float64Div_error (r : ℚ) 6371000
    rw [abs_div] at this
    simpa using this

/-- The radius `6371000` gives the angular radius `1`. -/
theorem angular_radius_one : float64Div (float64OfInt 6371000) 6371000 = 1 := by
  rw [float64OfInt_exact 6371000 (by norm_num)]
  have := roundFloat64_representable 1 0 (by norm_num)
  unfold float64Div
  simpa using this

/-- The radius `1` gives the binary64 value nearest to `1 / 6371000`. -/
theorem angular_radius_at_one :
    float64Div (float64OfInt 1) 6371000 = 5929827635058415 / 37778931862957161709568 := by
  rw [float64OfInt_exact 1 (by norm_num)]
  unfold float64Div
  rw [roundFloat64_of_bounds (((1 : ℤ) : ℚ) / 6371000) (-23)
    (by norm_num [abs_of_pos]) (by norm_num [abs_of_pos]),
    roundHalfEven_of_near _ 5929827635058415 (by norm_num) (by norm_num)]
  norm_num

/-- The conversion of `2 ^ 53 + 1` is a tie and goes to `2 ^ 53`. -/
theorem float64OfInt_tie : float64OfInt (2 ^ 53 + 1) = 2 ^ 53 := by
  unfold float64OfInt
  rw [roundFloat64_of_bounds _ 53 (by norm_num [abs_of_pos]) (by norm_num [abs_of_pos])]
  have : (((2 ^ 53 + 1 : ℤ) : ℚ)) / 2 ^ ((53 : ℤ) - 52) = ((2 ^ 52 : ℤ) : ℚ) + 1 / 2 := by
    norm_num
  rw [this, roundHalfEven_tie]
  norm_num

/-- For a 64-bit radius other than zero, the converted radius and the quotient
lie in the normal range of binary64, where `roundFloat64` is IEEE rounding. -/
theorem angular_radius_normal (r : ℤ) (hr : -2 ^ 63 ≤ r ∧ r < 2 ^ 63) (h0 : r ≠ 0) :
    ((2 : ℚ) ^ (-1022 : ℤ) ≤ |float64OfInt r| ∧ |float64OfInt r| < 2 ^ (1024 : ℤ)) ∧
    ((2 : ℚ) ^ (-1022 : ℤ) ≤ |float64Div (float64OfInt r) 6371000| ∧
      |float64Div (float64OfInt r) 6371000| < 2 ^ (1024 : ℤ)) := by
  have hone : (1 : ℚ) ≤ |(r : ℚ)| := by
    have : (1 : ℤ) ≤ |r| := Int.one_le_abs h0
    have h := Int.cast_le (R := ℚ) |>.mpr this
    simpa using h
  have hmax : |(r : ℚ)| ≤ 2 ^ 63 := by
    have : |r| ≤ 2 ^ 63 := abs_le.mpr ⟨hr.1, hr.2.le⟩
    have h := Int.cast_le (R := ℚ) |>.mpr this
    simpa using h
  have hA : |float64OfInt r - (r : ℚ)| ≤ |(r : ℚ)| / 2 ^ 53 := roundFloat64_error _
  have hA1 := abs_sub_abs_le_abs_sub (float64OfInt r) (r : ℚ)
  have hA2 := abs_sub_abs_le_abs_sub (r : ℚ) (float64OfInt r)
  rw [abs_sub_comm] at hA2
  have hq := (angular_radius_error r).1
  have hq1 := abs_sub_abs_le_abs_sub (float64Div (float64OfInt r) 6371000) ((r : ℚ) / 6371000)
  have hq2 := abs_sub_abs_le_abs_sub ((r : ℚ) / 6371000) (float64Div (float64OfInt r) 6371000)
  rw [abs_sub_comm] at hq2
  have hdiv : |(r : ℚ) / 6371000| = |(r : ℚ)| / 6371000 := by
    rw [abs_div]; norm_num
  rw [hdiv] at hq1 hq2
  have hsmall : (2 : ℚ) ^ (-1022 : ℤ) ≤ 1 / 2 ^ 30 := by
    have h1 : (2 : ℚ) ^ (-1022 : ℤ) ≤ 2 ^ (-30 : ℤ) :=
      zpow_le_zpow_right₀ (by norm_num : (1 : ℚ) ≤ 2) (by omega : (-1022 : ℤ) ≤ -30)
    have h2 : (2 : ℚ) ^ (-30 : ℤ) = 1 / 2 ^ 30 := by
      rw [zpow_neg, one_div]; norm_cast
    rw [← h2]; exact h1
  have hbig : (2 : ℚ) ^ 65 ≤ 2 ^ (1024 : ℤ) := by
    have h1 : (2 : ℚ) ^ (65 : ℤ) ≤ 2 ^ (1024 : ℤ) :=
      zpow_le_zpow_right₀ (by norm_num : (1 : ℚ) ≤ 2) (by omega : (65 : ℤ) ≤ 1024)
    have h2 : (2 : ℚ) ^ (65 : ℤ) = 2 ^ 65 := by norm_cast
    rw [← h2]; exact h1
  have e53 : |(r : ℚ)| / 2 ^ 53 ≤ |(r : ℚ)| / 2 := by
    apply div_le_div_of_nonneg_left (abs_nonneg _) (by norm_num) (by norm_num)
  have e51 : |(r : ℚ)| / 6371000 / 2 ^ 51 ≤ |(r : ℚ)| / 6371000 / 2 := by
    apply div_le_div_of_nonneg_left (by positivity) (by norm_num) (by norm_num)
  have elow : (1 : ℚ) / 2 ^ 30 ≤ |(r : ℚ)| / 6371000 / 2 := by
    have : (1 : ℚ) / 6371000 / 2 ≤ |(r : ℚ)| / 6371000 / 2 := by
      apply div_le_div_of_nonneg_right _ (by norm_num)
      apply div_le_div_of_nonneg_right hone (by norm_num)
    have h2 : (1 : ℚ) / 2 ^ 30 ≤ 1 / 6371000 / 2 := by norm_num
    linarith
  have ehigh : |(r : ℚ)| / 6371000 ≤ 2 ^ 63 := by
    have : |(r : ℚ)| / 6371000 ≤ |(r : ℚ)| / 1 := by
      apply div_le_div_of_nonneg_left (abs_nonneg _) (by norm_num) (by norm_num)
    linarith
  have : (1 : ℚ) / 2 ^ 30 ≤ 1 / 2 := by norm_num
  have h65 : (2 : ℚ) ^ 65 = 4 * 2 ^ 63 := by norm_num
  rw [h65] at hbig
  generalize (2 : ℚ) ^ (-1022 : ℤ) = lo at hsmall ⊢
  generalize (2 : ℚ) ^ (1024 : ℤ) = hi at hbig ⊢
  refine ⟨⟨?_, ?_⟩, ⟨?_, ?_⟩⟩ <;> linarith

/-! ## The claims -/

/-- C1: for corners `lowerLeft` and `upperRight` that each hold at least two
numbers, `GeoBoxQuery` submits exactly one filter,
`{border: {$geoWithin: {$geometry: {type: "Polygon", coordinates: ring}}}}`, whose
ring has 5 points in the order lower-left, lower-right, upper-right, upper-left,
lower-left, so that its first and last points are equal. -/
theorem GeoBoxQuery_submits_closed_ring (client : Client) (lowerLeft upperRight : List ℚ)
    (hl : 2 ≤ lowerLeft.length) (hu : 2 ≤ upperRight.length) :
    ∃ ring : List (List ℚ),
      submitted (GeoBoxQuery client lowerLeft upperRight) =
        [[("border", Value.doc
          [("$geoWithin", Value.doc
            [("$geometry", Value.doc
              [("type", Value.str "Polygon"), ("coordinates", Value.floats2 ring)])])])]] ∧
      ring = [[lowerLeft[0], lowerLeft[1]], [upperRight[0], lowerLeft[1]],
              [upperRight[0], upperRight[1]], [lowerLeft[0], upperRight[1]],
              [lowerLeft[0], lowerLeft[1]]] ∧
      ring.length = 5 ∧ ring.head? = ring.getLast? := by
  refine ⟨_, ?_, rfl, rfl, rfl⟩
  simp only [GeoBoxQuery, boxFilter, boxRing_of_length lowerLeft upperRight hl hu,
    submitted_findAll]

/-- The theorem of C1 at the corners `[0, 0, 9]` and `[2, 1]`. -/
theorem GeoBoxQuery_submits_closed_ring_witness :
    2 ≤ ([0, 0, 9] : List ℚ).length ∧ 2 ≤ ([2, 1] : List ℚ).length ∧
    ∃ ring : List (List ℚ),
      submitted (GeoBoxQuery (answers [unitRecord]) [0, 0, 9] [2, 1]) =
        [[("border", Value.doc
          [("$geoWithin", Value.doc
            [("$geometry", Value.doc
              [("type", Value.str "Polygon"), ("coordinates", Value.floats2 ring)])])])]] ∧
      ring = [[0, 0], [2, 0], [2, 1], [0, 1], [0, 0]] ∧
      ring.length = 5 ∧ ring.head? = ring.getLast? :=
  ⟨by decide, by decide,
    GeoBoxQuery_submits_closed_ring (answers [unitRecord]) [0, 0, 9] [2, 1]
      (by decide) (by decide)⟩

/-- C2, as stated, fails: for center `[0, 0]` and radius `1` the angular radius
`GeoCenterQuery` submits is `5929827635058415 / 2 ^ 75`, the binary64 value nearest
to `1 / 6371000`, and not `1 / 6371000`. -/
theorem angular_radius_is_rounded :
    submitted (GeoCenterQuery (answers []) [0, 0] 1) =
      [[("border", Value.doc
        [("$geoWithin", Value.doc
          [("$centerSphere", Value.arr
            [Value.floats [0, 0],
             Value.float (5929827635058415 / 37778931862957161709568)])])])]] ∧
    (5929827635058415 / 37778931862957161709568 : ℚ) ≠ 1 / 6371000 := by
  constructor
  · simp only [GeoCenterQuery, submitted_findAll, centerFilter, angular_radius_at_one]
  · norm_num

/-- C2, amended: for every center and every 64-bit integer radius `r`,
`GeoCenterQuery` submits exactly one filter,
`{border: {$geoWithin: {$centerSphere: [center, a]}}}`, with the center unchanged
and `a` the binary64 quotient `float64(r) / 6371000`. It equals `r / 6371000`
within floating-point tolerance: the error is at most `2 ^ (-51)` of
`|r| / 6371000`, and at most `2 ^ (-53)` of it when `|r| ≤ 2 ^ 53`; for `r ≠ 0` the
value lies in the normal range of binary64; for `r = 6371000` it is exactly `1`. -/
theorem GeoCenterQuery_submits_rounded_radius (client : Client) (center : List ℚ)
    (radius : Int) (hr : -2 ^ 63 ≤ radius ∧ radius < 2 ^ 63) :
    ∃ a : ℚ,
      submitted (GeoCenterQuery client center radius) =
        [[("border", Value.doc
          [("$geoWithin", Value.doc
            [("$centerSphere", Value.arr [Value.floats center, Value.float a])])])]] ∧
      a = float64Div (float64OfInt radius) 6371000 ∧
      |a - (radius : ℚ) / 6371000| ≤ |(radius : ℚ)| / 6371000 / 2 ^ 51 ∧
      (|radius| ≤ 2 ^ 53 →
        |a - (radius : ℚ) / 6371000| ≤ |(radius : ℚ)| / 6371000 / 2 ^ 53) ∧
      (radius ≠ 0 → (2 : ℚ) ^ (-1022 : ℤ) ≤ |a| ∧ |a| < 2 ^ (1024 : ℤ)) ∧
      (radius = 6371000 → a = 1) := by
  refine ⟨_, ?_, rfl, (angular_radius_error radius).1, (angular_radius_error radius).2,
    fun h0 => (angular_radius_normal radius hr h0).2, ?_⟩
  · simp only [GeoCenterQuery, submitted_findAll, centerFilter]
  · intro h
    rw [h]
    exact angular_radius_one

/-- The amended C2 at center `[0, 0]` and radius `6371000`. -/
theorem GeoCenterQuery_submits_rounded_radius_witness :
    (-2 ^ 63 ≤ (6371000 : Int) ∧ (6371000 : Int) < 2 ^ 63) ∧
    submitted (GeoCenterQuery (answers []) [0, 0] 6371000) =
      [[("border", Value.doc
        [("$geoWithin", Value.doc
          [("$centerSphere", Value.arr [Value.floats [0, 0], Value.float 1])])])]] := by
  refine ⟨by norm_num, ?_⟩
  obtain ⟨a, hs, _, _, _, _, h1⟩ :=
    GeoCenterQuery_submits_rounded_radius (answers []) [0, 0] 6371000 (by norm_num)
  rw [hs, h1 rfl]

/-- C9: for every polygon `p` and integer `d`, `GeoNearQuery` and
`GeoNearSphereQuery` submit one filter each, `{border: {$near: body}}` and
`{border: {$nearSphere: body}}`, with the same
`body = {$geometry: {type: "Polygon", coordinates: p}, $maxDistance: d}`: `p` and
`d` are passed as given. -/
theorem GeoNearSphereQuery_like_GeoNearQuery (client : Client) (p : List (List ℚ))
    (d : Int) :
    ∃ body : M,
      body = [("$geometry", Value.doc
                [("type", Value.str "Polygon"), ("coordinates", Value.floats2 p)]),
              ("$maxDistance", Value.int d)] ∧
      submitted (GeoNearQuery client p d) =
        [[("border", Value.doc [("$near", Value.doc body)])]] ∧
      submitted (GeoNearSphereQuery client p d) =
        [[("border", Value.doc [("$nearSphere", Value.doc body)])]] := by
  refine ⟨_, rfl, ?_, ?_⟩
  · simp only [GeoNearQuery, submitted_findAll, nearFilter]
  · simp only [GeoNearSphereQuery, submitted_findAll, nearSphereFilter]

/-- C10: for every store and every argument pair `(g, d)`, `GeoMaxDistanceQuery`
and `GeoNearQuery` behave identically (same calls, same results, same error): both
submit `{border: {$near: {$geometry: {type: "Polygon", coordinates: g},
$maxDistance: d}}}`. `GeoMinDistanceQuery` submits the same document with the key
`$minDistance` in place of `$maxDistance`, and its `$near` document has no
`$maxDistance` key. -/
theorem GeoMaxDistanceQuery_eq_GeoNearQuery (client : Client) (g : List (List ℚ))
    (d : Int) :
    GeoMaxDistanceQuery client g d = GeoNearQuery client g d ∧
    submitted (GeoMaxDistanceQuery client g d) =
      [[("border", Value.doc
        [("$near", Value.doc
          [("$geometry", Value.doc
            [("type", Value.str "Polygon"), ("coordinates", Value.floats2 g)]),
           ("$maxDistance", Value.int d)])])]] ∧
    submitted (GeoMinDistanceQuery client g d) =
      [[("border", Value.doc
        [("$near", Value.doc
          [("$geometry", Value.doc
            [("type", Value.str "Polygon"), ("coordinates", Value.floats2 g)]),
           ("$minDistance", Value.int d)])])]] ∧
    ∃ n : M,
      submitted (GeoMinDistanceQuery client g d) =
        [[("border", Value.doc [("$near", Value.doc n)])]] ∧
      keys n = ["$geometry", "$minDistance"] ∧ get? n "$maxDistance" = none := by
  refine ⟨rfl, ?_, ?_,
    ⟨[("$geometry", Value.doc
        [("type", Value.str "Polygon"), ("coordinates", Value.floats2 g)]),
      ("$minDistance", Value.int d)], ?_, rfl, rfl⟩⟩
  · simp only [GeoMaxDistanceQuery, submitted_findAll, maxDistanceFilter]
  · simp only [GeoMinDistanceQuery, submitted_findAll, minDistanceFilter]
  · simp only [GeoMinDistanceQuery, submitted_findAll, minDistanceFilter]

/-- C3: for each of the nine operations and every input whose filter `f` is
submitted, if `Find` fails with `e`, or `Find` succeeds and decoding the cursor
fails with `e`, the operation returns `nil` results together with exactly `e`.
Moreover no call of any operation returns results together with an error. -/
theorem store_error_is_returned (client : Client) (c : Call) (f : M) (e : Error)
    (hf : c.filter = some f)
    (h : client.find "GIS" "location" queryCtx f = Except.error e ∨
         ∃ cur, client.find "GIS" "location" queryCtx f = Except.ok cur ∧
                cur.all queryCtx = Except.error e) :
    (c.run client).outcome = Outcome.ret none (some e) ∧
    ∀ (client' : Client) (c' : Call) (rs : Option (List LocationData)) (err : Error),
      (c'.run client').outcome = Outcome.ret rs (some err) → rs = none := by
  refine ⟨?_, fun client' c' rs err h' => run_error_has_no_results client' c' rs err h'⟩
  rw [run_of_filter client c f hf]
  rcases h with h | ⟨cur, h, ha⟩
  · rw [findAll_find_error client f e h]
  · rw [findAll_all_error client f cur e h ha]

/-- The theorem of C3 at `GeoBoxQuery` on a store whose cursor fails to decode. -/
theorem store_error_is_returned_witness :
    (Call.box [0, 0] [1, 1]).filter = some unitBoxFilter ∧
    (∃ cur, (decodeFails { msg := "decode" }).find "GIS" "location" queryCtx unitBoxFilter =
        Except.ok cur ∧ cur.all queryCtx = Except.error { msg := "decode" }) ∧
    ((Call.box [0, 0] [1, 1]).run (decodeFails { msg := "decode" })).outcome =
      Outcome.ret none (some { msg := "decode" }) :=
  ⟨by simp [Call.filter, boxFilter, boxRing, index, unitBoxFilter],
    ⟨{ all := fun _ => Except.error { msg := "decode" } }, rfl, rfl⟩,
    (store_error_is_returned (decodeFails { msg := "decode" }) (Call.box [0, 0] [1, 1])
      unitBoxFilter { msg := "decode" }
      (by simp [Call.filter, boxFilter, boxRing, index, unitBoxFilter])
      (Or.inr ⟨{ all := fun _ => Except.error { msg := "decode" } }, rfl, rfl⟩)).1⟩

/-- C4: for each of the nine operations, when `Find` succeeds on the submitted
filter and the cursor decodes to the sequence `s`, the operation returns a slice
whose elements are exactly `s` (every record, no others, in that order) with a
`nil` error; the slice is `nil` exactly when `s` is empty. -/
theorem store_results_are_returned (client : Client) (c : Call) (f : M) (cur : Cursor)
    (s : List LocationData) (hf : c.filter = some f)
    (h : client.find "GIS" "location" queryCtx f = Except.ok cur)
    (ha : cur.all queryCtx = Except.ok s) :
    ∃ results : Option (List LocationData),
      (c.run client).outcome = Outcome.ret results none ∧
      elems results = s ∧ (results = none ↔ s = []) := by
  rw [run_of_filter client c f hf, findAll_ok client f cur s h ha]
  refine ⟨decoded s, rfl, ?_, ?_⟩
  · cases s <;> rfl
  · cases s <;> simp [decoded]

/-- The theorem of C4 at `GeoWithinQuery`, on a store that answers two records and
on a store that answers none. -/
theorem store_results_are_returned_witness :
    ((Call.within unitSquare).run (answers [unitRecord, { unitRecord with ID := "r2" }])).outcome =
      Outcome.ret (some [unitRecord, { unitRecord with ID := "r2" }]) none ∧
    ((Call.within unitSquare).run (answers [])).outcome = Outcome.ret none none := by
  obtain ⟨r1, h1, e1, _⟩ :=
    store_results_are_returned (answers [unitRecord, { unitRecord with ID := "r2" }])
      (Call.within unitSquare) (withinFilter unitSquare)
      { all := fun _ => Except.ok [unitRecord, { unitRecord with ID := "r2" }] }
      [unitRecord, { unitRecord with ID := "r2" }] rfl rfl rfl
  obtain ⟨r2, h2, _, n2⟩ :=
    store_results_are_returned (answers []) (Call.within unitSquare)
      (withinFilter unitSquare) { all := fun _ => Except.ok [] } [] rfl rfl rfl
  constructor
  · rw [h1]
    cases r1 with
    | none => cases e1
    | some xs => rw [show xs = _ from e1]
  · rw [h2, n2.mpr rfl]

/-- C5: for each of the nine operations, every call that gets as far as acquiring
its execution scope returns (with the store's error from `Find`, from decoding,
from a timeout, or with results), acquires the scope once, as its first step, and
calls `cancel` exactly once, as its last step before returning. -/
theorem scope_released_exactly_once (client : Client) (c : Call) (f : M)
    (hf : c.filter = some f) :
    acquisitions (c.run client) = 1 ∧ releases (c.run client) = 1 ∧
    (c.run client).trace.head? = some (Event.withTimeout (10 * Second)) ∧
    (c.run client).trace.getLast? = some Event.cancel ∧
    ∃ rs err, (c.run client).outcome = Outcome.ret rs err := by
  rw [run_of_filter client c f hf]
  refine ⟨?_, ?_, ?_, ?_, ?_⟩
  · obtain ⟨mid, ht, hm | hm⟩ := findAll_trace client f <;>
      (rw [acquisitions, ht, hm]; rfl)
  · obtain ⟨mid, ht, hm | hm⟩ := findAll_trace client f <;>
      (rw [releases, ht, hm]; rfl)
  · obtain ⟨mid, ht, _⟩ := findAll_trace client f
    rw [ht]; rfl
  · obtain ⟨mid, ht, hm | hm⟩ := findAll_trace client f <;>
      (rw [ht, hm]; rfl)
  · rcases findAll_outcome client f with ⟨e, he⟩ | ⟨s, hs⟩
    · exact ⟨none, some e, he⟩
    · exact ⟨decoded s, none, hs⟩

/-- The theorem of C5 at `GeoCenterQuery` on a store whose `Find` fails. -/
theorem scope_released_exactly_once_witness :
    (Call.center [0, 0] 5).filter = some (centerFilter [0, 0] 5) ∧
    releases ((Call.center [0, 0] 5).run (findFails { msg := "deadline exceeded" })) = 1 :=
  ⟨rfl,
    (scope_released_exactly_once (findFails { msg := "deadline exceeded" })
      (Call.center [0, 0] 5) (centerFilter [0, 0] 5) rfl).2.1⟩

/-- C6: for each of the nine operations and all arguments, a call that submits its
filter first creates a context with a timeout of 10 seconds
(10 000 000 000 ns), passes that context to `Find`, and every later call into the
driver (draining the cursor, closing it) carries that same budget. -/
theorem budget_is_ten_seconds (client : Client) (c : Call) (f : M)
    (hf : c.filter = some f) :
    ∃ rest : List Event,
      (c.run client).trace =
        Event.withTimeout 10000000000 ::
          Event.find { timeout := 10000000000 } "GIS" "location" f :: rest ∧
      ∀ ev ∈ rest, ∀ d, ev.budget? = some d → d = 10000000000 := by
  rw [run_of_filter client c f hf]
  obtain ⟨mid, ht, hm | hm⟩ := findAll_trace client f
  · refine ⟨mid ++ [Event.cancel], ht, ?_⟩
    subst hm
    intro ev hev d hd
    simp only [List.nil_append, List.mem_singleton] at hev
    subst hev
    cases hd
  · refine ⟨mid ++ [Event.cancel], ht, ?_⟩
    subst hm
    intro ev hev d hd
    simp only [List.cons_append, List.nil_append, List.mem_cons, List.mem_singleton,
      List.not_mem_nil, or_false] at hev
    rcases hev with rfl | rfl | rfl
    · cases hd; rfl
    · cases hd; rfl
    · cases hd

/-- The theorem of C6 at `GeoNearQuery` with distance `1`. -/
theorem budget_is_ten_seconds_witness :
    (Call.near unitSquare 1).filter = some (nearFilter unitSquare 1) ∧
    ∃ rest : List Event,
      ((Call.near unitSquare 1).run (answers [])).trace =
        Event.withTimeout 10000000000 ::
          Event.find { timeout := 10000000000 } "GIS" "location"
            (nearFilter unitSquare 1) :: rest ∧
      ∀ ev ∈ rest, ∀ d, ev.budget? = some d → d = 10000000000 :=
  ⟨rfl, budget_is_ten_seconds (answers []) (Call.near unitSquare 1)
    (nearFilter unitSquare 1) rfl⟩

/-- C7: on every store, `GeoBoxQuery` called with the empty `lowerLeft` and
`upperRight = [1, 2]` panics on the index expression of line 139: it makes no call
at all, submits no filter and returns nothing. On the same store
`GeoIntersectQuery` called with the malformed polygon `[[1]]` does submit its
filter. -/
theorem GeoBoxQuery_short_corner_panics (client : Client) :
    (GeoBoxQuery client [] [1, 2]).outcome = Outcome.panic ∧
    (GeoBoxQuery client [] [1, 2]).trace = [] ∧
    submitted (GeoBoxQuery client [] [1, 2]) = [] ∧
    submitted (GeoIntersectQuery client [[1]]) = [intersectFilter [[1]]] :=
  ⟨rfl, rfl, rfl, submitted_findAll client (intersectFilter [[1]])⟩

/-- C8, as stated, fails: the filter `GeoCenterQuery` submits for center `[0, 0]`
and radius `6371000` has no geometry object with `type` and `coordinates` under its
operator, and neither has the filter `GeoGeometryQuery` submits for the empty
geometry document. -/
theorem described_shape_fails :
    submitted ((Call.center [0, 0] 6371000).run (answers [])) =
      [centerFilter [0, 0] 6371000] ∧
    describedShape (centerFilter [0, 0] 6371000) = false ∧
    submitted ((Call.geometry []).run (answers [])) = [geometryFilter []] ∧
    describedShape (geometryFilter []) = false :=
  ⟨rfl, rfl, rfl, rfl⟩

/-- C8, amended: every filter one of the nine operations submits has the single
top-level key `border`, holding a document with a single key that is one of
`$geoIntersects`, `$geoWithin`, `$near`, `$nearSphere`. For the seven operations
other than `GeoCenterQuery` and `GeoGeometryQuery` that operator holds a
`$geometry` object with both `type` and `coordinates`. `GeoCenterQuery` holds
`$centerSphere: [center, float64(radius) / 6371000]` under `$geoWithin` and no geometry
object. `GeoGeometryQuery` holds the caller's document, unchanged, as `$geometry`
under `$geoWithin`: it has `type` and `coordinates` exactly when the caller's
document has. -/
theorem submitted_filter_shape (client : Client) (c : Call) (f : M)
    (hf : f ∈ submitted (c.run client)) :
    keys f = ["border"] ∧
    (∃ op body, borderPredicate? f = some (op, body) ∧ op ∈ operators) ∧
    match c with
    | Call.center ctr r =>
      borderPredicate? f =
        some ("$geoWithin",
          [("$centerSphere",
            Value.arr [Value.floats ctr,
              Value.float (float64Div (float64OfInt r) 6371000)])]) ∧
      describedShape f = false
    | Call.geometry g =>
      borderPredicate? f = some ("$geoWithin", [("$geometry", Value.doc g)]) ∧
      describedShape f = hasTypeAndCoordinates g
    | _ => describedShape f = true := by
  rw [submitted_run] at hf
  cases c with
  | box ll ur =>
    simp only [Call.filter, boxFilter] at hf
    cases hr : boxRing ll ur with
    | none => simp [hr] at hf
    | some ring =>
      simp only [hr, Option.toList, List.mem_singleton] at hf
      subst hf
      exact ⟨rfl, ⟨_, _, rfl, by decide⟩, rfl⟩
  | center ctr r =>
    simp only [Call.filter, Option.toList, List.mem_singleton] at hf
    subst hf
    exact ⟨rfl, ⟨_, _, rfl, by decide⟩, rfl, rfl⟩
  | geometry g =>
    simp only [Call.filter, Option.toList, List.mem_singleton] at hf
    subst hf
    exact ⟨rfl, ⟨_, _, rfl, by decide⟩, rfl, rfl⟩
  | _ =>
    simp only [Call.filter, Option.toList, List.mem_singleton] at hf
    subst hf
    exact ⟨rfl, ⟨_, _, rfl, by decide⟩, rfl⟩

/-- The amended C8 at `GeoMinDistanceQuery` on the unit square with distance `3`. -/
theorem submitted_filter_shape_witness :
    minDistanceFilter unitSquare 3 ∈
      submitted ((Call.minDistance unitSquare 3).run (answers [])) ∧
    keys (minDistanceFilter unitSquare 3) = ["border"] ∧
    (∃ op body, borderPredicate? (minDistanceFilter unitSquare 3) = some (op, body) ∧
      op ∈ operators) ∧
    describedShape (minDistanceFilter unitSquare 3) = true :=
  ⟨List.mem_singleton.mpr rfl,
    submitted_filter_shape (answers []) (Call.minDistance unitSquare 3)
      (minDistanceFilter unitSquare 3) (List.mem_singleton.mpr rfl)⟩

end Geospatialsaw
